import Mathlib

/-!
Verification development for the drillhole viewport core (SceneCanvas) of the
geo-core-logger repository.

The definitions below are a shallow embedding of the TypeScript source:

* JavaScript numbers are modelled as exact real numbers (`ℝ`); the
  `typeof x === "number" && Number.isFinite(x)` guards on optional fields are
  modelled by `Option ℝ`, where `none` stands for a missing or non-finite value.
* `THREE.Vector3` is the record `Vec3r`, `THREE.Box3` the record `Box3r`
  (an un-initialised `new THREE.Box3()` accumulator is `Option Box3r`, with
  `none` standing for the infinite empty box).
* React effects are modelled as explicit state-transition functions on a
  record `SceneState` that holds the camera, controls and object-group state
  which the effects mutate.
-/

namespace GeoCore

open Real

/-! ## Vectors (THREE.Vector3) -/

@[ext]
structure Vec3r where
  x : ℝ
  y : ℝ
  z : ℝ

/-- `v.lengthSq()` of THREE.Vector3: `x*x + y*y + z*z`. -/
def lengthSq (v : Vec3r) : ℝ := v.x * v.x + v.y * v.y + v.z * v.z

/-- `a.add(b)` (componentwise sum). -/
def vadd (a b : Vec3r) : Vec3r := ⟨a.x + b.x, a.y + b.y, a.z + b.z⟩

/-- `v.multiplyScalar(s)` (componentwise scaling). -/
def vscale (v : Vec3r) (s : ℝ) : Vec3r := ⟨v.x * s, v.y * s, v.z * s⟩

open Classical in
/-- `v.normalize()` of THREE.Vector3: `divideScalar(this.length() || 1)`;
a zero length is replaced by 1 by the JavaScript `||` operator. -/
noncomputable def vnormalize (v : Vec3r) : Vec3r :=
  let l := Real.sqrt (lengthSq v)
  let d := if l = 0 then 1 else l
  ⟨v.x / d, v.y / d, v.z / d⟩

/-! ## Data model (`lib/model.ts` plus the azimuth/inclination fields read by
`SceneCanvas`; spec §3) -/

/-- An interval record. The source field names `from`/`to` are Lean keywords
and are embedded as `fromDepth`/`toDepth`. -/
structure Interval where
  id : String
  fromDepth : ℝ
  toDepth : ℝ
  lith : String
  rqd : Option ℝ
  recovery : Option ℝ
  remarks : Option String

/-- A drillhole record. `azimuth`/`inclination` are `none` when the field is
missing or non-finite (the source guards every read with
`typeof _ === "number" && Number.isFinite(_)`). -/
structure Drillhole where
  id : String
  collar : Vec3r
  depth : ℝ
  azimuth : Option ℝ
  inclination : Option ℝ
  intervals : Option (List Interval)

/-- The slice of `ProjectFile` read by `SceneCanvas`. -/
structure ProjectFile where
  version : String
  drillholes : List Drillhole

/-! ## Angle helpers (`SceneCanvas.tsx`, part_004 lines 57-78) -/

/-- JavaScript truncation toward zero, as used by the `%` operator. -/
noncomputable def jsTrunc (q : ℝ) : ℝ :=
  if 0 ≤ q then (⌊q⌋ : ℝ) else (⌈q⌉ : ℝ)

/-- The JavaScript remainder operator `a % b`:
`a - b * trunc(a / b)` (sign follows the dividend). -/
noncomputable def jsMod (a b : ℝ) : ℝ := a - b * jsTrunc (a / b)

/-- `normalizeAzimuthDeg`: `const r = ((a % 360) + 360) % 360;
return Math.abs(r) < 1e-12 ? 0 : r;`. -/
noncomputable def normalizeAzimuthDeg (a : ℝ) : ℝ :=
  let r := jsMod (jsMod a 360 + 360) 360
  if |r| < 1e-12 then 0 else r

/-- `clampInclinationDownDeg`: `Math.max(-90, Math.min(0, incRaw))`. -/
noncomputable def clampInclinationDownDeg (incRaw : ℝ) : ℝ :=
  max (-90) (min 0 incRaw)

/-- `degToRad`: `(d * Math.PI) / 180`. -/
noncomputable def degToRad (d : ℝ) : ℝ := d * Real.pi / 180

/-- `fmt`: `String(Math.round(n * 1000) / 1000)` — the numeric value displayed,
rounded to three decimal places (`Math.round x = ⌊x + 1/2⌋ = round x`). -/
noncomputable def fmt (n : ℝ) : ℝ := (round (n * 1000) : ℝ) / 1000

/-! ## Downhole direction (`drillDirFromAzInc`, part_004 lines 93-114) -/

open Classical in
/-- `drillDirFromAzInc`: default a missing/non-finite azimuth to 0 and
inclination to -90, normalize/clamp, and build the downhole unit vector;
a near-zero-length result falls back to `(0, -1, 0)`. -/
noncomputable def drillDirFromAzInc (h : Drillhole) : Vec3r :=
  let azRaw := h.azimuth.getD 0
  let az := normalizeAzimuthDeg azRaw
  let incRaw := h.inclination.getD (-90)
  let inc := clampInclinationDownDeg incRaw
  let azR := degToRad az
  let hMag := Real.cos (degToRad (-inc))
  let x := hMag * Real.sin azR
  let z := hMag * Real.cos azR
  let y := -Real.sin (degToRad (-inc))
  let v : Vec3r := ⟨x, y, z⟩
  if lengthSq v < 1e-12 then ⟨0, -1, 0⟩ else vnormalize v

/-! ## Helper lemmas about the angle pipeline -/

theorem jsMod_nonneg_lt (a b : ℝ) (ha : 0 ≤ a) (hb : 0 < b) :
    0 ≤ jsMod a b ∧ jsMod a b < b := by
  have hq : 0 ≤ a / b := div_nonneg ha hb.le
  have h1 : jsMod a b = b * Int.fract (a / b) := by
    rw [jsMod, jsTrunc, if_pos hq, Int.fract]
    field_simp
  constructor
  · rw [h1]; exact mul_nonneg hb.le (Int.fract_nonneg _)
  · rw [h1]
    calc b * Int.fract (a / b) < b * 1 :=
      (mul_lt_mul_left hb).mpr (Int.fract_lt_one _)
    _ = b := mul_one b

theorem jsMod_neg_range (a b : ℝ) (ha : a < 0) (hb : 0 < b) :
    -b < jsMod a b ∧ jsMod a b ≤ 0 := by
  have hq : ¬ (0 ≤ a / b) := by
    rw [not_le]
    exact div_neg_of_neg_of_pos ha hb
  have h1 : jsMod a b = a - b * (⌈a / b⌉ : ℝ) := by
    rw [jsMod, jsTrunc, if_neg hq]
  constructor
  · rw [h1]
    have hc : (⌈a / b⌉ : ℝ) < a / b + 1 := Int.ceil_lt_add_one _
    have := (mul_lt_mul_left hb).mpr hc
    rw [mul_add, mul_one, mul_div_cancel₀ _ hb.ne.symm] at this
    linarith
  · rw [h1]
    have hc : a / b ≤ (⌈a / b⌉ : ℝ) := Int.le_ceil _
    have := (mul_le_mul_left hb).mpr hc
    rw [mul_div_cancel₀ _ hb.ne.symm] at this
    linarith

theorem jsMod_range (a b : ℝ) (hb : 0 < b) : -b < jsMod a b ∧ jsMod a b < b := by
  rcases le_or_lt 0 a with ha | ha
  · have := jsMod_nonneg_lt a b ha hb
    exact ⟨by linarith [this.1], this.2⟩
  · have := jsMod_neg_range a b ha hb
    exact ⟨this.1, by linarith [this.2]⟩

theorem normalizeAzimuthDeg_mem (a : ℝ) :
    0 ≤ normalizeAzimuthDeg a ∧ normalizeAzimuthDeg a < 360 := by
  rw [normalizeAzimuthDeg]
  have h1 := jsMod_range a 360 (by norm_num)
  have h2 := jsMod_nonneg_lt (jsMod a 360 + 360) 360 (by linarith [h1.1]) (by norm_num)
  split
  · norm_num
  · exact h2

theorem clampInclinationDownDeg_mem (i : ℝ) :
    -90 ≤ clampInclinationDownDeg i ∧ clampInclinationDownDeg i ≤ 0 := by
  rw [clampInclinationDownDeg]
  constructor
  · exact le_max_left _ _
  · exact max_le (by norm_num) (min_le_left _ _)

theorem jsMod_eval_pos (a b r : ℝ) (h0 : 0 ≤ a / b) (hf : (⌊a / b⌋ : ℝ) = r) :
    jsMod a b = a - b * r := by
  rw [jsMod, jsTrunc, if_pos h0, hf]

theorem jsMod_eval_neg (a b r : ℝ) (h0 : ¬ 0 ≤ a / b) (hf : (⌈a / b⌉ : ℝ) = r) :
    jsMod a b = a - b * r := by
  rw [jsMod, jsTrunc, if_neg h0, hf]

theorem normalizeAzimuthDeg_zero : normalizeAzimuthDeg 0 = 0 := by
  have h1 : jsMod 0 360 = 0 := by
    rw [jsMod_eval_pos 0 360 0 (by norm_num) (by norm_num)]; ring
  have h2 : jsMod 360 360 = 0 := by
    rw [jsMod_eval_pos 360 360 1 (by norm_num) (by norm_num)]; ring
  simp only [normalizeAzimuthDeg, h1]
  rw [show (0:ℝ) + 360 = 360 by norm_num, h2, if_pos (by norm_num)]

theorem normalizeAzimuthDeg_neg_ten : normalizeAzimuthDeg (-10) = 350 := by
  have h1 : jsMod (-10) 360 = -10 := by
    rw [jsMod_eval_neg (-10) 360 0 (by norm_num) (by norm_num)]; ring
  have h2 : jsMod 350 360 = 350 := by
    rw [jsMod_eval_pos 350 360 0 (by norm_num) (by norm_num)]; ring
  simp only [normalizeAzimuthDeg, h1]
  rw [show (-10:ℝ) + 360 = 350 by norm_num, h2, if_neg (by norm_num)]

theorem normalizeAzimuthDeg_350 : normalizeAzimuthDeg 350 = 350 := by
  have h1 : jsMod 350 360 = 350 := by
    rw [jsMod_eval_pos 350 360 0 (by norm_num) (by norm_num)]; ring
  have h2 : jsMod 710 360 = 350 := by
    rw [jsMod_eval_pos 710 360 1 (by norm_num) (by norm_num)]; ring
  simp only [normalizeAzimuthDeg, h1]
  rw [show (350:ℝ) + 360 = 710 by norm_num, h2, if_neg (by norm_num)]

theorem normalizeAzimuthDeg_360 : normalizeAzimuthDeg 360 = 0 := by
  have h1 : jsMod 360 360 = 0 := by
    rw [jsMod_eval_pos 360 360 1 (by norm_num) (by norm_num)]; ring
  simp only [normalizeAzimuthDeg, h1]
  rw [show (0:ℝ) + 360 = 360 by norm_num, h1, if_pos (by norm_num)]

theorem clampInclinationDownDeg_ten : clampInclinationDownDeg 10 = 0 := by
  rw [clampInclinationDownDeg]
  norm_num

theorem clampInclinationDownDeg_neg200 : clampInclinationDownDeg (-200) = -90 := by
  rw [clampInclinationDownDeg]
  norm_num

theorem clampInclinationDownDeg_neg90 : clampInclinationDownDeg (-90) = -90 := by
  rw [clampInclinationDownDeg]
  norm_num

theorem clampInclinationDownDeg_zero : clampInclinationDownDeg 0 = 0 := by
  rw [clampInclinationDownDeg]
  norm_num

/-! ## Structure of the downhole direction -/

/-- The vector built inside `drillDirFromAzInc` from the normalized azimuth
and clamped inclination always has squared length exactly 1 over the reals. -/
theorem dirVec_lengthSq (θ φ : ℝ) :
    lengthSq ⟨Real.cos θ * Real.sin φ, -Real.sin θ, Real.cos θ * Real.cos φ⟩ = 1 := by
  have h1 := Real.sin_sq_add_cos_sq φ
  have h2 := Real.sin_sq_add_cos_sq θ
  simp only [lengthSq]
  linear_combination (Real.cos θ) ^ 2 * h1 + h2

/-- `drillDirFromAzInc` computed in closed form: the fallback branch is never
taken over exact reals and normalization divides by 1. -/
theorem drillDirFromAzInc_eq (h : Drillhole) :
    drillDirFromAzInc h =
      ⟨Real.cos (degToRad (-(clampInclinationDownDeg (h.inclination.getD (-90))))) *
         Real.sin (degToRad (normalizeAzimuthDeg (h.azimuth.getD 0))),
       -Real.sin (degToRad (-(clampInclinationDownDeg (h.inclination.getD (-90))))),
       Real.cos (degToRad (-(clampInclinationDownDeg (h.inclination.getD (-90))))) *
         Real.cos (degToRad (normalizeAzimuthDeg (h.azimuth.getD 0)))⟩ := by
  set θ := degToRad (-(clampInclinationDownDeg (h.inclination.getD (-90)))) with hθ
  set φ := degToRad (normalizeAzimuthDeg (h.azimuth.getD 0)) with hφ
  have hL : lengthSq ⟨Real.cos θ * Real.sin φ, -Real.sin θ, Real.cos θ * Real.cos φ⟩ = 1 :=
    dirVec_lengthSq θ φ
  rw [drillDirFromAzInc]
  simp only [← hθ, ← hφ, hL]
  rw [if_neg (by norm_num), vnormalize]
  simp only [hL, Real.sqrt_one]
  rw [if_neg one_ne_zero]
  simp

/-- The downhole direction is a unit vector. -/
theorem drillDirFromAzInc_unit (h : Drillhole) : lengthSq (drillDirFromAzInc h) = 1 := by
  rw [drillDirFromAzInc_eq]
  exact dirVec_lengthSq _ _

/-- The downhole direction always points weakly downward (`y ≤ 0`). -/
theorem drillDirFromAzInc_y_nonpos (h : Drillhole) : (drillDirFromAzInc h).y ≤ 0 := by
  rw [drillDirFromAzInc_eq]
  have hm := clampInclinationDownDeg_mem (h.inclination.getD (-90))
  set inc := clampInclinationDownDeg (h.inclination.getD (-90))
  have h0 : 0 ≤ degToRad (-inc) := by
    rw [degToRad]
    have : 0 ≤ -inc := by linarith [hm.2]
    positivity
  have hpi : degToRad (-inc) ≤ Real.pi := by
    rw [degToRad]
    have h90 : -inc ≤ 90 := by linarith [hm.1]
    have : -inc * Real.pi / 180 ≤ 90 * Real.pi / 180 := by
      have := Real.pi_pos
      apply div_le_div_of_nonneg_right _ (by norm_num)
      exact mul_le_mul_of_nonneg_right h90 this.le
    calc -inc * Real.pi / 180 ≤ 90 * Real.pi / 180 := this
    _ = Real.pi / 2 := by ring
    _ ≤ Real.pi := by linarith [Real.pi_pos]
  simp only
  have := Real.sin_nonneg_of_nonneg_of_le_pi h0 hpi
  linarith

/-- A vertical hole (missing/non-finite inclination, or inclination -90)
points exactly straight down, for any azimuth. -/
theorem drillDirFromAzInc_vertical (h : Drillhole)
    (hi : h.inclination = none ∨ h.inclination = some (-90)) :
    drillDirFromAzInc h = ⟨0, -1, 0⟩ := by
  have hg : h.inclination.getD (-90) = -90 := by
    rcases hi with hi | hi <;> rw [hi] <;> rfl
  rw [drillDirFromAzInc_eq, hg, clampInclinationDownDeg_neg90]
  rw [show -(-90 : ℝ) = 90 by norm_num]
  rw [show degToRad 90 = Real.pi / 2 by rw [degToRad]; ring]
  rw [Real.cos_pi_div_two, Real.sin_pi_div_two]
  ext <;> simp

/-- Azimuth 0, inclination 0 points due north. -/
theorem drillDirFromAzInc_north (h : Drillhole)
    (haz : h.azimuth = some 0) (hinc : h.inclination = some 0) :
    drillDirFromAzInc h = ⟨0, 0, 1⟩ := by
  rw [drillDirFromAzInc_eq, haz, hinc]
  simp only [Option.getD_some]
  rw [normalizeAzimuthDeg_zero, clampInclinationDownDeg_zero]
  rw [show -(0:ℝ) = 0 by norm_num, show degToRad 0 = 0 by rw [degToRad]; ring]
  rw [Real.cos_zero, Real.sin_zero]
  ext <;> simp

/-! ## Bounds (THREE.Box3 and `computeDrillholeBounds`) -/

/-- A THREE.Box3 with at least one point expanded into it. -/
@[ext]
structure Box3r where
  min : Vec3r
  max : Vec3r

/-- `box.expandByPoint(p)` on a non-empty box. -/
def expandByPoint (b : Box3r) (p : Vec3r) : Box3r :=
  ⟨⟨min b.min.x p.x, min b.min.y p.y, min b.min.z p.z⟩,
   ⟨max b.max.x p.x, max b.max.y p.y, max b.max.z p.z⟩⟩

/-- `box.expandByPoint(p)` where `none` is the freshly constructed (empty)
`new THREE.Box3()` with `min = +∞`, `max = -∞`: expanding the empty box by a
point gives the degenerate box at that point. -/
def expandOpt (acc : Option Box3r) (p : Vec3r) : Option Box3r :=
  match acc with
  | none => some ⟨p, p⟩
  | some b => some (expandByPoint b p)

/-- The top point of a hole: its collar. -/
def holeTop (h : Drillhole) : Vec3r := h.collar

/-- The bottom point of a hole in the later iteration (part_004):
`top + drillDirFromAzInc(h) * max(0, depth)`. -/
noncomputable def holeBot (h : Drillhole) : Vec3r :=
  vadd (holeTop h) (vscale (drillDirFromAzInc h) (max 0 h.depth))

/-- `computeDrillholeBounds` (part_004 lines 116-135): `null` on an empty
list, otherwise the box expanded by top and bottom of every hole.  The
source's `any` flag is true exactly when the list is non-empty, which the
leading emptiness test already covers. -/
noncomputable def computeDrillholeBounds (drillholes : List Drillhole) : Option Box3r :=
  if drillholes.isEmpty then none
  else
    drillholes.foldl (fun acc h => expandOpt (expandOpt acc (holeTop h)) (holeBot h)) none

/-- The bottom point of a hole in the earlier iteration (part_003 lines
53-71): straight down by `max(0, depth)`, ignoring azimuth/inclination. -/
noncomputable def holeBotV1 (h : Drillhole) : Vec3r :=
  ⟨h.collar.x, h.collar.y - max 0 h.depth, h.collar.z⟩

/-- `computeDrillholeBounds` of the earlier iteration (part_003). -/
noncomputable def computeDrillholeBoundsV1 (drillholes : List Drillhole) : Option Box3r :=
  if drillholes.isEmpty then none
  else
    drillholes.foldl (fun acc h => expandOpt (expandOpt acc (holeTop h)) (holeBotV1 h)) none

/-! ### Order structure on boxes -/

/-- Componentwise order on vectors. -/
def vle (a b : Vec3r) : Prop := a.x ≤ b.x ∧ a.y ≤ b.y ∧ a.z ≤ b.z

/-- A point lies inside a box. -/
def inBox (b : Box3r) (p : Vec3r) : Prop := vle b.min p ∧ vle p b.max

/-- `b` lies inside `B` as a box. -/
def boxInside (b B : Box3r) : Prop := vle B.min b.min ∧ vle b.max B.max

theorem vle_refl (a : Vec3r) : vle a a := ⟨le_refl _, le_refl _, le_refl _⟩

theorem vle_trans {a b c : Vec3r} (h1 : vle a b) (h2 : vle b c) : vle a c :=
  ⟨h1.1.trans h2.1, h1.2.1.trans h2.2.1, h1.2.2.trans h2.2.2⟩

theorem inBox_point (p : Vec3r) : inBox ⟨p, p⟩ p := ⟨vle_refl p, vle_refl p⟩

theorem expandByPoint_grows (b : Box3r) (p : Vec3r) : boxInside b (expandByPoint b p) :=
  ⟨⟨min_le_left _ _, min_le_left _ _, min_le_left _ _⟩,
   ⟨le_max_left _ _, le_max_left _ _, le_max_left _ _⟩⟩

theorem expandByPoint_mem (b : Box3r) (p : Vec3r) : inBox (expandByPoint b p) p :=
  ⟨⟨min_le_right _ _, min_le_right _ _, min_le_right _ _⟩,
   ⟨le_max_right _ _, le_max_right _ _, le_max_right _ _⟩⟩

theorem inBox_mono {b B : Box3r} {p : Vec3r} (hb : boxInside B b) (hp : inBox B p) :
    inBox b p :=
  ⟨vle_trans hb.1 hp.1, vle_trans hp.2 hb.2⟩

theorem boxInside_refl (b : Box3r) : boxInside b b := ⟨vle_refl _, vle_refl _⟩

theorem boxInside_trans {a b c : Box3r} (h1 : boxInside a b) (h2 : boxInside b c) :
    boxInside a c :=
  ⟨vle_trans h2.1 h1.1, vle_trans h1.2 h2.2⟩

theorem expandByPoint_least (b B : Box3r) (p : Vec3r)
    (hb : boxInside b B) (hp : inBox B p) : boxInside (expandByPoint b p) B := by
  obtain ⟨⟨a1, a2, a3⟩, ⟨c1, c2, c3⟩⟩ := hb
  obtain ⟨⟨d1, d2, d3⟩, ⟨e1, e2, e3⟩⟩ := hp
  exact ⟨⟨le_min a1 d1, le_min a2 d2, le_min a3 d3⟩,
         ⟨max_le c1 e1, max_le c2 e2, max_le c3 e3⟩⟩

/-! ### Fold lemmas for the running box -/

/-- Folding points into a non-empty accumulator yields a box that contains
the accumulator and all folded points. -/
theorem foldl_expandOpt_some (ps : List Vec3r) :
    ∀ b0 : Box3r, ∃ b : Box3r,
      ps.foldl expandOpt (some b0) = some b ∧ boxInside b0 b ∧ ∀ p ∈ ps, inBox b p := by
  induction ps with
  | nil => intro b0; exact ⟨b0, rfl, boxInside_refl b0, by simp⟩
  | cons q qs ih =>
    intro b0
    obtain ⟨b, hb, hgrow, hmem⟩ := ih (expandByPoint b0 q)
    refine ⟨b, hb, boxInside_trans (expandByPoint_grows b0 q) hgrow, ?_⟩
    intro p hp
    rcases List.mem_cons.mp hp with rfl | hp
    · exact inBox_mono hgrow (expandByPoint_mem b0 p)
    · exact hmem p hp

/-- Folding points into an accumulator already inside `B`, in which all the
points also lie, yields a box inside `B` (minimality of the running box). -/
theorem foldl_expandOpt_least (ps : List Vec3r) :
    ∀ (acc : Option Box3r) (b B : Box3r),
      ps.foldl expandOpt acc = some b →
      (∀ p ∈ ps, inBox B p) →
      (∀ b0, acc = some b0 → boxInside b0 B) →
      boxInside b B := by
  induction ps with
  | nil =>
    intro acc b B hfold hmem hacc
    simp only [List.foldl_nil] at hfold
    exact hacc b hfold
  | cons q qs ih =>
    intro acc b B hfold hmem hacc
    simp only [List.foldl_cons] at hfold
    refine ih (expandOpt acc q) b B hfold (fun p hp => hmem p (List.mem_cons_of_mem _ hp)) ?_
    intro b0 h0
    have hq : inBox B q := hmem q (List.mem_cons_self _ _)
    match acc, h0 with
    | none, h0 =>
      simp only [expandOpt, Option.some.injEq] at h0
      subst h0
      exact ⟨hq.1, hq.2⟩
    | some b1, h0 =>
      simp only [expandOpt, Option.some.injEq] at h0
      subst h0
      exact expandByPoint_least b1 B q (hacc b1 rfl) hq

/-- The interleaved per-hole fold of `computeDrillholeBounds` equals the fold
over the flattened top/bottom point list. -/
theorem computeDrillholeBounds_eq_foldPts (hs : List Drillhole) :
    computeDrillholeBounds hs =
      if hs.isEmpty then none
      else (hs.flatMap fun h => [holeTop h, holeBot h]).foldl expandOpt none := by
  rw [computeDrillholeBounds]
  congr 1
  generalize (none : Option Box3r) = acc
  induction hs generalizing acc with
  | nil => simp
  | cons q qs ih => simp [List.foldl_cons, ih]

/-! ## Cameras, controls, camera state (`SceneCanvas`, part_004 lines 31-55) -/

/-- `CameraState`: `{ position, target, zoom? }`. -/
structure CameraState where
  position : Vec3r
  target : Vec3r
  zoom : Option ℝ

/-- `cloneState(pos, tgt, zoom?)`: positions and targets are cloned, so the
snapshot is a value, not a reference. -/
def cloneState (pos tgt : Vec3r) (zoom : Option ℝ) : CameraState := ⟨pos, tgt, zoom⟩

/-- The state of a `THREE.PerspectiveCamera` read or written by SceneCanvas. -/
structure PerspCamera where
  position : Vec3r
  fov : ℝ
  aspect : ℝ
  near : ℝ
  far : ℝ

/-- The state of a `THREE.OrthographicCamera` read or written by SceneCanvas.
`lookTarget` records the argument of the last `lookAt` call (the camera's
viewing direction points from `position` towards it). -/
structure OrthoCamera where
  position : Vec3r
  up : Vec3r
  lookTarget : Vec3r
  left : ℝ
  right : ℝ
  top : ℝ
  bottom : ℝ
  near : ℝ
  far : ℝ
  zoom : ℝ

/-- The OrbitControls state read or written by SceneCanvas. -/
structure ControlsState where
  target : Vec3r
  enableRotate : Bool

/-- `applyState` on the perspective camera: copy position and target; the
`isOrthographicCamera` guard is false, so `zoom` is ignored. -/
def applyStatePersp (cam : PerspCamera) (controls : ControlsState) (st : CameraState) :
    PerspCamera × ControlsState :=
  ({ cam with position := st.position }, { controls with target := st.target })

/-- `applyState` on the orthographic camera: copy position and target, and
also `zoom` when the snapshot stored a number. -/
def applyStateOrtho (cam : OrthoCamera) (controls : ControlsState) (st : CameraState) :
    OrthoCamera × ControlsState :=
  (match st.zoom with
   | some z => { cam with position := st.position, zoom := z }
   | none => { cam with position := st.position },
   { controls with target := st.target })

/-! ## Fit to bounds (part_004 lines 137-201) -/

/-- `Box3.isEmpty()`: some max component below the matching min component. -/
def box3IsEmpty (b : Box3r) : Prop :=
  b.max.x < b.min.x ∨ b.max.y < b.min.y ∨ b.max.z < b.min.z

open Classical in
/-- `box.getCenter(target)`: zero for an empty box, else `(min + max) * 0.5`. -/
noncomputable def getCenter (b : Box3r) : Vec3r :=
  if box3IsEmpty b then ⟨0, 0, 0⟩ else vscale (vadd b.min b.max) 0.5

open Classical in
/-- `box.getSize(target)`: zero for an empty box, else `max - min`. -/
noncomputable def getSize (b : Box3r) : Vec3r :=
  if box3IsEmpty b then ⟨0, 0, 0⟩
  else ⟨b.max.x - b.min.x, b.max.y - b.min.y, b.max.z - b.min.z⟩

/-- `fitPerspectiveToBounds` (part_004 lines 137-163). -/
noncomputable def fitPerspectiveToBounds (cam : PerspCamera) (controls : ControlsState)
    (box : Box3r) (viewportAspect : ℝ) : PerspCamera × ControlsState :=
  let center := getCenter box
  let size := getSize box
  let span := max (max size.x size.z) 10
  let verticalSpan := max size.y 10
  let fov := cam.fov * Real.pi / 180
  let distForSpan := (span / 2) / Real.tan (fov / 2)
  let distForVertical := (verticalSpan / 2) / Real.tan (fov / 2)
  let dist := max distForSpan distForVertical * 1.35
  ({ cam with
      position := ⟨center.x + dist, center.y + dist * 0.65, center.z + dist⟩,
      near := max 0.1 (dist / 200),
      far := max 5000 (dist * 20),
      aspect := viewportAspect },
   { controls with target := center })

/-- `fitOrthoToBounds` (part_004 lines 165-201).  The returned `ℝ` is the new
value of `orthoHalfHRef.current`. -/
noncomputable def fitOrthoToBounds (cam : OrthoCamera) (controls : ControlsState)
    (box : Box3r) (viewportAspect : ℝ) : OrthoCamera × ControlsState × ℝ :=
  let center := getCenter box
  let size := getSize box
  let spanZ := max 10 size.z
  let padding : ℝ := 1.25
  let halfH := spanZ * padding / 2
  let halfW := halfH * viewportAspect
  ({ cam with
      left := -halfW,
      right := halfW,
      top := halfH,
      bottom := -halfH,
      near := 0.1,
      far := 20000,
      position := ⟨center.x, center.y + max 200 (size.y + 200), center.z⟩,
      up := ⟨0, 0, -1⟩,
      lookTarget := center,
      zoom := 1 },
   { controls with target := center, enableRotate := false },
   halfH)

/-! ## Scene objects (`makeDrillholeMesh`, part_004 lines 861-917) -/

/-- Theme tokens consumed by the scene builder. -/
structure ThemeTokens where
  gridMajor : String
  gridMinor : String
  drillhole : String
  collar : String
  selection : String
  isDark : Bool

/-- The geometry of a mesh, by constructor and constructor arguments. -/
inductive Geometry where
  | cylinder (radiusTop radiusBottom height : ℝ) (radialSegments heightSegments : ℕ)
      (openEnded : Bool)
  | sphere (radius : ℝ) (widthSegments heightSegments : ℕ)
  | circle (radius : ℝ) (segments : ℕ)

/-- A quaternion (x, y, z, w). -/
structure Quat where
  x : ℝ
  y : ℝ
  z : ℝ
  w : ℝ

/-- The identity quaternion of a freshly constructed Object3D. -/
def qIdentity : Quat := ⟨0, 0, 0, 1⟩

open Classical in
/-- `Quaternion.normalize()`: divide by the length, or reset to the identity
when the length is 0. -/
noncomputable def qnormalize (q : Quat) : Quat :=
  let l := Real.sqrt (q.x * q.x + q.y * q.y + q.z * q.z + q.w * q.w)
  if l = 0 then ⟨0, 0, 0, 1⟩ else ⟨q.x / l, q.y / l, q.z / l, q.w / l⟩

/-- `v.dot(w)` of THREE.Vector3. -/
def vdot (a b : Vec3r) : ℝ := a.x * b.x + a.y * b.y + a.z * b.z

open Classical in
/-- `Quaternion.setFromUnitVectors(vFrom, vTo)` of THREE (r160):
`r = dot + 1`; if `r < Number.EPSILON` pick an arbitrary orthogonal axis,
else use the cross product, then normalize. -/
noncomputable def qSetFromUnitVectors (vFrom vTo : Vec3r) : Quat :=
  let r := vdot vFrom vTo + 1
  if r < (2 : ℝ) ^ (-52 : ℤ) then
    (if |vFrom.x| > |vFrom.z| then qnormalize ⟨-vFrom.y, vFrom.x, 0, 0⟩
     else qnormalize ⟨0, -vFrom.z, vFrom.y, 0⟩)
  else
    qnormalize ⟨vFrom.y * vTo.z - vFrom.z * vTo.y,
                vFrom.z * vTo.x - vFrom.x * vTo.z,
                vFrom.x * vTo.y - vFrom.y * vTo.x, r⟩

/-- `obj.rotateX(θ)` applied to the identity orientation: the quaternion of a
rotation by `θ` about the X axis. -/
noncomputable def qRotateX (θ : ℝ) : Quat :=
  ⟨Real.sin (θ / 2), 0, 0, Real.cos (θ / 2)⟩

/-- A mesh with the fields SceneCanvas sets: geometry, the `userData.kind`
tag, material color (and opacity for the translucent collar disc), position
and orientation. -/
structure MeshObj where
  geometry : Geometry
  kind : String
  color : String
  opacity : Option ℝ
  position : Vec3r
  quaternion : Quat

/-- A per-hole group: `g.userData.id = h.id` plus its child meshes. -/
structure DrillGroup where
  userDataId : String
  children : List MeshObj

/-- `makeDrillholeMesh(h, tokens, selected)` (part_004 lines 861-917). -/
noncomputable def makeDrillholeMesh (h : Drillhole) (tokens : ThemeTokens)
    (selected : Bool) : DrillGroup :=
  let radius : ℝ := 0.35
  let depth := max 0.01 h.depth
  let dir := drillDirFromAzInc h
  let collarPos := h.collar
  let center := vadd collarPos (vscale dir (depth / 2))
  let cyl : MeshObj :=
    { geometry := .cylinder radius radius depth 16 1 false,
      kind := "drillhole",
      color := if selected then tokens.selection else tokens.drillhole,
      opacity := none,
      position := center,
      quaternion := qSetFromUnitVectors ⟨0, 1, 0⟩ dir }
  let collar : MeshObj :=
    { geometry := .sphere (radius * 1.2) 16 16,
      kind := "collar",
      color := if selected then tokens.selection else tokens.collar,
      opacity := none,
      position := collarPos,
      quaternion := qIdentity }
  let circle : MeshObj :=
    { geometry := .circle (radius * 1.6) 24,
      kind := "collar",
      color := if selected then tokens.selection else tokens.collar,
      opacity := some (if tokens.isDark then 0.55 else 0.35),
      position := ⟨h.collar.x, h.collar.y + 0.02, h.collar.z⟩,
      quaternion := qRotateX (-(Real.pi / 2)) }
  ⟨h.id, [cyl, collar, circle]⟩

/-- A grid-group child (`THREE.GridHelper(size, divisions, c1, c2)`). -/
inductive GridObj where
  | gridHelper (size : ℝ) (divisions : ℕ) (colorCenterLine colorGrid : String)

/-! ## Component state (`SceneCanvas` refs) and the effects -/

/-- The two view modes. -/
inductive ViewType where
  | view3d
  | plan2d
deriving DecidableEq

/-- The mutable state of `SceneCanvas` that the modelled effects read and
write: both cameras and controls, the two saved `CameraState`s, the active
camera discriminant, the three object groups and `orthoHalfHRef`. -/
structure SceneState where
  cam3D : PerspCamera
  cam2D : OrthoCamera
  controls3D : ControlsState
  controls2D : ControlsState
  camState3D : Option CameraState
  camState2D : Option CameraState
  active : ViewType
  drillGroup : List DrillGroup
  gridGroup : List GridObj
  terrainGroup : List Unit
  orthoHalfH : ℝ

/-- The view-switching effect (part_004 lines 620-646): snapshot the active
camera into its `CameraState`, switch the active camera, toggle rotation, and
restore the newly active camera from its last snapshot when one exists. -/
def switchView (s : SceneState) (view : ViewType) : SceneState :=
  let s1 :=
    match s.active with
    | .view3d =>
      { s with camState3D := some (cloneState s.cam3D.position s.controls3D.target none) }
    | .plan2d =>
      let st2 := cloneState s.cam2D.position s.controls2D.target (some s.cam2D.zoom)
      { s with camState2D := some st2 }
  match view with
  | .view3d =>
    let c3 : ControlsState := { s1.controls3D with enableRotate := true }
    match s1.camState3D with
    | some st =>
      let r := applyStatePersp s1.cam3D c3 st
      { s1 with active := .view3d, cam3D := r.1, controls3D := r.2 }
    | none => { s1 with active := .view3d, controls3D := c3 }
  | .plan2d =>
    let c2 : ControlsState := { s1.controls2D with enableRotate := false }
    match s1.camState2D with
    | some st =>
      let r := applyStateOrtho s1.cam2D c2 st
      { s1 with active := .plan2d, cam2D := r.1, controls2D := r.2 }
    | none => { s1 with active := .plan2d, controls2D := c2 }

/-- One entry of the `projectSig` coordinate list (part_004 lines 267-282):
`[collar.x, collar.y, collar.z, depth, azimuth || 0, inclination || -90]`
with the `Number.isFinite` defaults. -/
def sigEntry (d : Drillhole) : List ℝ :=
  [d.collar.x, d.collar.y, d.collar.z, d.depth, d.azimuth.getD 0, d.inclination.getD (-90)]

/-- `projectSig`: the joined string is determined by (and determines, up to
the separator encoding) the version, the id list and the coordinate list. -/
def projectSig (p : ProjectFile) : String × List String × List (List ℝ) :=
  (p.version, p.drillholes.map Drillhole.id, p.drillholes.map sigEntry)

/-- The body of the auto-fit effect (part_004 lines 570-589): bail out when
the bounds are `null`, otherwise refit both cameras and overwrite both saved
camera states. -/
noncomputable def autoFitPass (s : SceneState) (project : ProjectFile) (aspect : ℝ) :
    SceneState :=
  match computeDrillholeBounds project.drillholes with
  | none => s
  | some bounds =>
    let p3 := fitPerspectiveToBounds s.cam3D s.controls3D bounds aspect
    let p2 := fitOrthoToBounds s.cam2D s.controls2D bounds aspect
    { s with
      cam3D := p3.1, controls3D := p3.2,
      cam2D := p2.1, controls2D := p2.2.1, orthoHalfH := p2.2.2,
      camState3D := some (cloneState p3.1.position p3.2.target none),
      camState2D := some (cloneState p2.1.position p2.2.1.target (some p2.1.zoom)) }

/-- The React dependency array of the auto-fit effect,
`[projectSig, project.drillholes]`: the memoised signature string plus the
identity of the `project.drillholes` array, modelled by a reference token. -/
structure AutoFitDeps where
  sig : String × List String × List (List ℝ)
  drillholesRef : ℕ

open Classical in
/-- One update step of the auto-fit effect: React re-runs the effect body iff
the dependency array changed (element-wise `Object.is`), i.e. iff the
signature value or the `drillholes` array reference changed. -/
noncomputable def autoFitEffectStep (prevDeps : AutoFitDeps) (project : ProjectFile)
    (ref : ℕ) (s : SceneState) (aspect : ℝ) : SceneState :=
  let nowDeps : AutoFitDeps := ⟨projectSig project, ref⟩
  if prevDeps = nowDeps then s else autoFitPass s project aspect

/-- The rebuild-objects effect (part_004 lines 537-567): clear and rebuild the
three groups wholesale; cameras, controls and saved camera states are not
touched. -/
noncomputable def rebuildObjects (s : SceneState) (project : ProjectFile)
    (showGrid showTerrain : Bool) (tokens : ThemeTokens) (selectedId : Option String) :
    SceneState :=
  { s with
    drillGroup :=
      project.drillholes.map fun h => makeDrillholeMesh h tokens (selectedId == some h.id),
    gridGroup :=
      if showGrid then [GridObj.gridHelper 400 40 tokens.gridMajor tokens.gridMinor] else [],
    terrainGroup := if showTerrain then [] else [] }

/-! ## Picking (part_004 lines 203-210 and 649-676) -/

/-- `pickIdFromObject`: walk the ancestor chain (the object's own
`userData.id` first, then its parents) and return the first truthy id.  A
JavaScript falsy id (absent, or the empty string) is skipped. -/
def pickIdFromObject : List (Option String) → Option String
  | [] => none
  | some s :: rest => if s ≠ "" then some s else pickIdFromObject rest
  | none :: rest => pickIdFromObject rest

/-- The three scene groups the pointer handler can see. -/
structure SceneGroups where
  drill : List DrillGroup
  grid : List GridObj
  terrain : List Unit

/-- JavaScript truthiness of the `id` local in the handler (`null` and the
empty string are falsy). -/
def isTruthyId : Option String → Bool
  | none => false
  | some s => s != ""

/-- The `onPointerDown` handler (part_004 lines 655-672), with the raycast
itself abstracted: `raycast cam ndc objs` stands for
`raycaster.setFromCamera(ndc, cam); raycaster.intersectObjects(objs, true)`
and returns the nearest-first hits, each given by its ancestor id chain.
The result is the identifier passed to `onSelect`, or `none` when `onSelect`
is not invoked at all. -/
noncomputable def onPointerDownEvent {Cam : Type} (raycast : Cam → ℝ × ℝ → List DrillGroup →
    List (List (Option String))) (cam : Cam) (groups : SceneGroups)
    (clientX clientY rectLeft rectTop rectWidth rectHeight : ℝ) : Option String :=
  let x := (clientX - rectLeft) / rectWidth * 2 - 1
  let y := -((clientY - rectTop) / rectHeight * 2 - 1)
  let hits := raycast cam (x, y) groups.drill
  match hits with
  | [] => none
  | c :: _ =>
    let i := pickIdFromObject c
    if isTruthyId i then i else none

/-! ## Hover tooltip content (`buildTooltipHtml`, part_004 lines 691-716) -/

/-- The data interpolated into the tooltip HTML. `azText`/`incText` are `none`
when the code renders the em-dash placeholder, and `some v` when it renders
`fmtDeg` of the normalized/clamped value `v` (the displayed number is `fmt v`,
rounded to three decimals, with a degree suffix). -/
structure TooltipContent where
  id : String
  depthText : ℝ
  collarText : Vec3r
  azText : Option ℝ
  incText : Option ℝ
  intervalsText : ℕ

/-- `buildTooltipHtml(h)` as structured content. -/
noncomputable def buildTooltipHtml (h : Drillhole) : TooltipContent :=
  let az := h.azimuth.map normalizeAzimuthDeg
  let inc := h.inclination.map clampInclinationDownDeg
  { id := h.id,
    depthText := fmt h.depth,
    collarText := ⟨fmt h.collar.x, fmt h.collar.y, fmt h.collar.z⟩,
    azText := az.map fmt,
    incText := inc.map fmt,
    intervalsText := (h.intervals.getD []).length }

/-! ## Claim theorems -/

/-- C1: `drillDirFromAzInc` defaults a missing/non-finite azimuth to 0 and
inclination to -90, normalizes the azimuth into [0, 360), clamps the
inclination into [-90, 0], and returns the unit vector
`(h·sin az, -sin(-inc), h·cos az)` with `h = cos(-inc)`; the result has
length 1 and `y ≤ 0` (over exact reals the near-zero fallback branch of the
source is never taken and normalization divides by 1); azimuth 0 with
inclination 0 gives (0, 0, 1), and inclination -90 with any azimuth gives
(0, -1, 0). -/
theorem c1_drill_direction (h : Drillhole) :
    (0 ≤ normalizeAzimuthDeg (h.azimuth.getD 0) ∧
      normalizeAzimuthDeg (h.azimuth.getD 0) < 360) ∧
    (-90 ≤ clampInclinationDownDeg (h.inclination.getD (-90)) ∧
      clampInclinationDownDeg (h.inclination.getD (-90)) ≤ 0) ∧
    drillDirFromAzInc h =
      ⟨Real.cos (degToRad (-(clampInclinationDownDeg (h.inclination.getD (-90))))) *
         Real.sin (degToRad (normalizeAzimuthDeg (h.azimuth.getD 0))),
       -Real.sin (degToRad (-(clampInclinationDownDeg (h.inclination.getD (-90))))),
       Real.cos (degToRad (-(clampInclinationDownDeg (h.inclination.getD (-90))))) *
         Real.cos (degToRad (normalizeAzimuthDeg (h.azimuth.getD 0)))⟩ ∧
    lengthSq (drillDirFromAzInc h) = 1 ∧
    (drillDirFromAzInc h).y ≤ 0 ∧
    (h.azimuth = some 0 → h.inclination = some 0 → drillDirFromAzInc h = ⟨0, 0, 1⟩) ∧
    (h.inclination = some (-90) → drillDirFromAzInc h = ⟨0, -1, 0⟩) := by
  refine ⟨normalizeAzimuthDeg_mem _, clampInclinationDownDeg_mem _,
    drillDirFromAzInc_eq h, drillDirFromAzInc_unit h, drillDirFromAzInc_y_nonpos h,
    fun ha hi => drillDirFromAzInc_north h ha hi,
    fun hi => drillDirFromAzInc_vertical h (Or.inr hi)⟩

/-- C1 witness: the two special orientations evaluated at concrete holes. -/
theorem c1_drill_direction_witness :
    (drillDirFromAzInc ⟨"A", ⟨0, 0, 0⟩, 42, some 0, some 0, none⟩ = ⟨0, 0, 1⟩) ∧
    (drillDirFromAzInc ⟨"B", ⟨1, 2, 3⟩, 10, some 123, some (-90), none⟩ = ⟨0, -1, 0⟩) :=
  ⟨(c1_drill_direction ⟨"A", ⟨0, 0, 0⟩, 42, some 0, some 0, none⟩).2.2.2.2.2.1 rfl rfl,
   (c1_drill_direction ⟨"B", ⟨1, 2, 3⟩, 10, some 123, some (-90), none⟩).2.2.2.2.2.2 rfl⟩

/-- C8: azimuth normalization always lands in [0, 360) with -10 and 350
normalizing to the same value and 360 normalizing to 0; inclination clamping
always lands in [-90, 0] with 10 ↦ 0 and -200 ↦ -90; and the direction and
tooltip computations consume only the normalized/clamped values. -/
theorem c8_normalize_clamp (a i : ℝ) (h : Drillhole) :
    (0 ≤ normalizeAzimuthDeg a ∧ normalizeAzimuthDeg a < 360) ∧
    (-90 ≤ clampInclinationDownDeg i ∧ clampInclinationDownDeg i ≤ 0) ∧
    normalizeAzimuthDeg (-10) = normalizeAzimuthDeg 350 ∧
    normalizeAzimuthDeg 360 = 0 ∧
    clampInclinationDownDeg 10 = 0 ∧
    clampInclinationDownDeg (-200) = -90 ∧
    drillDirFromAzInc h =
      ⟨Real.cos (degToRad (-(clampInclinationDownDeg (h.inclination.getD (-90))))) *
         Real.sin (degToRad (normalizeAzimuthDeg (h.azimuth.getD 0))),
       -Real.sin (degToRad (-(clampInclinationDownDeg (h.inclination.getD (-90))))),
       Real.cos (degToRad (-(clampInclinationDownDeg (h.inclination.getD (-90))))) *
         Real.cos (degToRad (normalizeAzimuthDeg (h.azimuth.getD 0)))⟩ ∧
    (buildTooltipHtml h).azText = (h.azimuth.map normalizeAzimuthDeg).map fmt ∧
    (buildTooltipHtml h).incText = (h.inclination.map clampInclinationDownDeg).map fmt := by
  refine ⟨normalizeAzimuthDeg_mem a, clampInclinationDownDeg_mem i, ?_,
    normalizeAzimuthDeg_360, clampInclinationDownDeg_ten, clampInclinationDownDeg_neg200,
    drillDirFromAzInc_eq h, rfl, rfl⟩
  rw [normalizeAzimuthDeg_neg_ten, normalizeAzimuthDeg_350]

/-- Folding a non-empty point list from the empty accumulator succeeds and
the resulting box contains every folded point. -/
theorem foldl_points_spec (ps : List Vec3r) :
    ps ≠ [] → ∃ b, ps.foldl expandOpt none = some b ∧ ∀ p ∈ ps, inBox b p := by
  intro hps
  obtain ⟨p0, pt, rfl⟩ := List.exists_cons_of_ne_nil hps
  obtain ⟨b, hb, hgrow, hmem⟩ := foldl_expandOpt_some pt ⟨p0, p0⟩
  refine ⟨b, ?_, ?_⟩
  · rw [List.foldl_cons, show expandOpt none p0 = some ⟨p0, p0⟩ from rfl]
    exact hb
  · intro p hp
    rcases List.mem_cons.mp hp with rfl | hp
    · exact inBox_mono hgrow (inBox_point p)
    · exact hmem p hp

/-- A non-empty list always produces a box. -/
theorem computeDrillholeBounds_ne_none {hs : List Drillhole} (h : hs ≠ []) :
    ∃ b, computeDrillholeBounds hs = some b := by
  rw [computeDrillholeBounds_eq_foldPts, if_neg (by simpa using h)]
  obtain ⟨h0, t, rfl⟩ := List.exists_cons_of_ne_nil h
  obtain ⟨b, hb, _⟩ := foldl_points_spec ((h0 :: t).flatMap fun x => [holeTop x, holeBot x])
    (by simp)
  exact ⟨b, hb⟩

/-- C3: `computeDrillholeBounds` returns `null` exactly on the empty list;
otherwise it returns the smallest axis-aligned box containing, for every
hole, top = collar and bottom = collar + direction · max(0, depth)
(containment plus minimality); a single vertical hole of depth `D ≥ 0` at the
origin yields exactly the box with Y extent [-D, 0]. -/
theorem c3_compute_bounds (hs : List Drillhole) (D : ℝ) :
    (computeDrillholeBounds hs = none ↔ hs = []) ∧
    (∀ b, computeDrillholeBounds hs = some b →
      (∀ h ∈ hs, inBox b (holeTop h) ∧ inBox b (holeBot h)) ∧
      (∀ B : Box3r, (∀ h ∈ hs, inBox B (holeTop h) ∧ inBox B (holeBot h)) →
        boxInside b B)) ∧
    (0 ≤ D →
      computeDrillholeBounds [⟨"DH", ⟨0, 0, 0⟩, D, none, some (-90), none⟩] =
        some ⟨⟨0, -D, 0⟩, ⟨0, 0, 0⟩⟩) := by
  refine ⟨⟨?_, ?_⟩, ?_, ?_⟩
  · intro hn
    by_contra hne
    obtain ⟨b, hb⟩ := computeDrillholeBounds_ne_none hne
    rw [hb] at hn
    cases hn
  · rintro rfl
    rfl
  · intro b hb
    have hne : hs ≠ [] := by
      rintro rfl
      rw [show computeDrillholeBounds [] = none from rfl] at hb
      cases hb
    have hfold : (hs.flatMap fun h => [holeTop h, holeBot h]).foldl expandOpt none = some b := by
      rw [computeDrillholeBounds_eq_foldPts, if_neg (by simpa using hne)] at hb
      exact hb
    constructor
    · -- containment of every top/bottom point
      have hmem : ∀ p ∈ hs.flatMap fun h => [holeTop h, holeBot h], inBox b p := by
        obtain ⟨b2, hb2, hmem2⟩ :=
          foldl_points_spec (hs.flatMap fun h => [holeTop h, holeBot h])
            (by obtain ⟨h0, t, rfl⟩ := List.exists_cons_of_ne_nil hne; simp)
        rw [hfold] at hb2
        obtain rfl : b2 = b := by injection hb2 with h2; exact h2.symm
        exact hmem2
      intro h hh
      exact ⟨hmem _ (List.mem_flatMap.mpr ⟨h, hh, by simp⟩),
             hmem _ (List.mem_flatMap.mpr ⟨h, hh, by simp⟩)⟩
    · -- minimality
      intro B hB
      refine foldl_expandOpt_least _ none b B hfold ?_ (by rintro b0 ⟨⟩)
      intro p hp
      obtain ⟨h, hh, hp2⟩ := List.mem_flatMap.mp hp
      rcases List.mem_cons.mp hp2 with rfl | hp3
      · exact (hB h hh).1
      · rcases List.mem_cons.mp hp3 with rfl | hp4
        · exact (hB h hh).2
        · cases hp4
  · intro hD
    have hdir :
        drillDirFromAzInc ⟨"DH", ⟨0, 0, 0⟩, D, none, some (-90), none⟩ = ⟨0, -1, 0⟩ :=
      drillDirFromAzInc_vertical _ (Or.inr rfl)
    have hbot : holeBot ⟨"DH", ⟨0, 0, 0⟩, D, none, some (-90), none⟩ = ⟨0, -D, 0⟩ := by
      rw [holeBot, holeTop, hdir, vscale, vadd]
      have : max 0 D = D := max_eq_right hD
      ext <;> simp [this]
    rw [computeDrillholeBounds]
    simp only [List.isEmpty_cons, List.foldl_cons, List.foldl_nil, hbot]
    rw [if_neg (by simp)]
    simp only [holeTop, expandOpt, expandByPoint]
    have h1 : min (0:ℝ) (-D) = -D := min_eq_right (by linarith)
    have h2 : max (0:ℝ) (-D) = 0 := max_eq_left (by linarith)
    simp [h1, h2]

/-- C3 witness: the concrete vertical hole of depth 5, plus the empty list. -/
theorem c3_compute_bounds_witness :
    ((0:ℝ) ≤ 5 ∧
      computeDrillholeBounds [⟨"DH", ⟨0, 0, 0⟩, 5, none, some (-90), none⟩] =
        some ⟨⟨0, -5, 0⟩, ⟨0, 0, 0⟩⟩) ∧
    computeDrillholeBounds [] = none :=
  ⟨⟨by norm_num,
    (c3_compute_bounds [⟨"DH", ⟨0, 0, 0⟩, 5, none, some (-90), none⟩] 5).2.2 (by norm_num)⟩,
   (c3_compute_bounds [] 0).1.mpr rfl⟩

/-- C10: on lists of vertical holes (inclination missing/non-finite or -90,
any azimuth, any depth), the earlier straight-down bounds computation
(part_003) and the later direction-based one (part_004) agree exactly. -/
theorem c10_vertical_bounds_refinement (hs : List Drillhole)
    (hvert : ∀ h ∈ hs, h.inclination = none ∨ h.inclination = some (-90)) :
    computeDrillholeBoundsV1 hs = computeDrillholeBounds hs := by
  rw [computeDrillholeBoundsV1, computeDrillholeBounds]
  congr 1
  apply List.foldl_ext
  intro acc h hmem
  have hb : holeBotV1 h = holeBot h := by
    rw [holeBot, holeTop, drillDirFromAzInc_vertical h (hvert h hmem), holeBotV1, vscale, vadd]
    ext <;> simp [sub_eq_add_neg]
  rw [hb]

/-- C10 witness: a two-hole vertical list evaluated through both versions. -/
theorem c10_vertical_bounds_refinement_witness :
    (∀ h ∈ [(⟨"A", ⟨0, 0, 0⟩, 42, some 15, none, none⟩ : Drillhole),
            ⟨"B", ⟨6, 0, 4⟩, 36, some 200, some (-90), none⟩],
      h.inclination = none ∨ h.inclination = some (-90)) ∧
    computeDrillholeBoundsV1 [(⟨"A", ⟨0, 0, 0⟩, 42, some 15, none, none⟩ : Drillhole),
        ⟨"B", ⟨6, 0, 4⟩, 36, some 200, some (-90), none⟩] =
      computeDrillholeBounds [(⟨"A", ⟨0, 0, 0⟩, 42, some 15, none, none⟩ : Drillhole),
        ⟨"B", ⟨6, 0, 4⟩, 36, some 200, some (-90), none⟩] := by
  constructor
  · intro h hh
    rcases List.mem_cons.mp hh with rfl | hh2
    · exact Or.inl rfl
    · rcases List.mem_cons.mp hh2 with rfl | hh3
      · exact Or.inr rfl
      · cases hh3
  · apply c10_vertical_bounds_refinement
    intro h hh
    rcases List.mem_cons.mp hh with rfl | hh2
    · exact Or.inl rfl
    · rcases List.mem_cons.mp hh2 with rfl | hh3
      · exact Or.inr rfl
      · cases hh3

/-- C2: starting in `view3d`, switching to `plan2d` and back restores the
perspective camera's position and target exactly.  The first switch snapshots
the 3D camera into its `CameraState`, the second switch snapshots the 2D
camera and restores the 3D camera from its snapshot; rotation is disabled
when entering the plan view and re-enabled when entering 3D; the object
groups, the stored half-height and the remaining perspective-camera fields
are untouched by the transitions. -/
theorem c2_view_switch_round_trip (s : SceneState) (h3 : s.active = ViewType.view3d) :
    (switchView (switchView s ViewType.plan2d) ViewType.view3d).cam3D.position =
      s.cam3D.position ∧
    (switchView (switchView s ViewType.plan2d) ViewType.view3d).controls3D.target =
      s.controls3D.target ∧
    (switchView s ViewType.plan2d).camState3D =
      some (cloneState s.cam3D.position s.controls3D.target none) ∧
    (switchView (switchView s ViewType.plan2d) ViewType.view3d).camState3D =
      (switchView s ViewType.plan2d).camState3D ∧
    (switchView (switchView s ViewType.plan2d) ViewType.view3d).camState2D =
      some (cloneState (switchView s ViewType.plan2d).cam2D.position
        (switchView s ViewType.plan2d).controls2D.target
        (some (switchView s ViewType.plan2d).cam2D.zoom)) ∧
    (switchView s ViewType.plan2d).active = ViewType.plan2d ∧
    (switchView (switchView s ViewType.plan2d) ViewType.view3d).active = ViewType.view3d ∧
    (switchView s ViewType.plan2d).controls2D.enableRotate = false ∧
    (switchView (switchView s ViewType.plan2d) ViewType.view3d).controls3D.enableRotate
      = true ∧
    (switchView (switchView s ViewType.plan2d) ViewType.view3d).drillGroup = s.drillGroup ∧
    (switchView (switchView s ViewType.plan2d) ViewType.view3d).gridGroup = s.gridGroup ∧
    (switchView (switchView s ViewType.plan2d) ViewType.view3d).terrainGroup =
      s.terrainGroup ∧
    (switchView (switchView s ViewType.plan2d) ViewType.view3d).orthoHalfH = s.orthoHalfH ∧
    (switchView (switchView s ViewType.plan2d) ViewType.view3d).cam3D.fov = s.cam3D.fov ∧
    (switchView (switchView s ViewType.plan2d) ViewType.view3d).cam3D.aspect =
      s.cam3D.aspect ∧
    (switchView (switchView s ViewType.plan2d) ViewType.view3d).cam3D.near = s.cam3D.near ∧
    (switchView (switchView s ViewType.plan2d) ViewType.view3d).cam3D.far = s.cam3D.far := by
  obtain ⟨cam3D, cam2D, controls3D, controls2D, camState3D, camState2D, active,
    drillGroup, gridGroup, terrainGroup, orthoHalfH⟩ := s
  simp only at h3
  subst h3
  cases camState2D <;>
    simp [switchView, applyStatePersp, applyStateOrtho, cloneState]

/-- C2 witness: a concrete 3D-active state pushed through the round trip. -/
theorem c2_view_switch_round_trip_witness :
    (switchView (switchView
        ⟨⟨⟨40, 30, 40⟩, 55, 1, 0.1, 20000⟩,
         ⟨⟨0, 200, 0⟩, ⟨0, 0, -1⟩, ⟨0, 0, 0⟩, -60, 60, 60, -60, 0.1, 20000, 1⟩,
         ⟨⟨1, 2, 3⟩, true⟩, ⟨⟨0, 0, 0⟩, false⟩, none, none, ViewType.view3d,
         [], [], [], 60⟩ ViewType.plan2d) ViewType.view3d).cam3D.position =
      ⟨40, 30, 40⟩ ∧
    (switchView (switchView
        ⟨⟨⟨40, 30, 40⟩, 55, 1, 0.1, 20000⟩,
         ⟨⟨0, 200, 0⟩, ⟨0, 0, -1⟩, ⟨0, 0, 0⟩, -60, 60, 60, -60, 0.1, 20000, 1⟩,
         ⟨⟨1, 2, 3⟩, true⟩, ⟨⟨0, 0, 0⟩, false⟩, none, none, ViewType.view3d,
         [], [], [], 60⟩ ViewType.plan2d) ViewType.view3d).controls3D.target =
      ⟨1, 2, 3⟩ := by
  have h := c2_view_switch_round_trip
    ⟨⟨⟨40, 30, 40⟩, 55, 1, 0.1, 20000⟩,
     ⟨⟨0, 200, 0⟩, ⟨0, 0, -1⟩, ⟨0, 0, 0⟩, -60, 60, 60, -60, 0.1, 20000, 1⟩,
     ⟨⟨1, 2, 3⟩, true⟩, ⟨⟨0, 0, 0⟩, false⟩, none, none, ViewType.view3d,
     [], [], [], 60⟩ rfl
  exact ⟨h.1, h.2.1⟩

/-- C7 (amended): `fitOrthoToBounds` sets the half-height to
`max(10, north-south span) * 1.25 / 2`, the half-width to half-height times
the aspect, positions the camera directly above the box center looking
straight down with the up vector set to `(0, 0, -1)` (the negative north
axis — not `(0, 0, 1)` as the claim states), disables rotation on the plan
controls, points the controls at the center, resets zoom to 1 and stores the
half-height in `orthoHalfHRef`. -/
theorem c7_fit_ortho_amended (cam : OrthoCamera) (controls : ControlsState)
    (box : Box3r) (aspect : ℝ) :
    (fitOrthoToBounds cam controls box aspect).1.top =
      max 10 (getSize box).z * 1.25 / 2 ∧
    (fitOrthoToBounds cam controls box aspect).1.bottom =
      -(max 10 (getSize box).z * 1.25 / 2) ∧
    (fitOrthoToBounds cam controls box aspect).1.right =
      max 10 (getSize box).z * 1.25 / 2 * aspect ∧
    (fitOrthoToBounds cam controls box aspect).1.left =
      -(max 10 (getSize box).z * 1.25 / 2 * aspect) ∧
    (fitOrthoToBounds cam controls box aspect).1.position.x = (getCenter box).x ∧
    (fitOrthoToBounds cam controls box aspect).1.position.z = (getCenter box).z ∧
    (getCenter box).y < (fitOrthoToBounds cam controls box aspect).1.position.y ∧
    (fitOrthoToBounds cam controls box aspect).1.lookTarget = getCenter box ∧
    (fitOrthoToBounds cam controls box aspect).1.up = ⟨0, 0, -1⟩ ∧
    (fitOrthoToBounds cam controls box aspect).2.1.enableRotate = false ∧
    (fitOrthoToBounds cam controls box aspect).2.1.target = getCenter box ∧
    (fitOrthoToBounds cam controls box aspect).1.zoom = 1 ∧
    (fitOrthoToBounds cam controls box aspect).2.2 =
      max 10 (getSize box).z * 1.25 / 2 := by
  refine ⟨rfl, rfl, rfl, rfl, rfl, rfl, ?_, rfl, rfl, rfl, rfl, rfl, rfl⟩
  simp only [fitOrthoToBounds]
  have h200 : (200:ℝ) ≤ max 200 ((getSize box).y + 200) := le_max_left _ _
  linarith

/-- C7 counterexample: at a concrete camera/box the up vector set by
`fitOrthoToBounds` is `(0, 0, -1)`, not the `(0, 0, 1)` (north) stated by the
claim. -/
theorem c7_fit_ortho_up_counterexample :
    (fitOrthoToBounds
        ⟨⟨0, 200, 0⟩, ⟨0, 1, 0⟩, ⟨0, 0, 0⟩, -60, 60, 60, -60, 0.1, 20000, 1⟩
        ⟨⟨0, 0, 0⟩, false⟩ ⟨⟨0, 0, 0⟩, ⟨10, 10, 10⟩⟩ 1).1.up = ⟨0, 0, -1⟩ ∧
    (⟨0, 0, -1⟩ : Vec3r) ≠ ⟨0, 0, 1⟩ := by
  constructor
  · rfl
  · intro hcontra
    have := congrArg Vec3r.z hcontra
    norm_num at this

/-- C6 (amended): the tooltip builder never throws; a missing/non-finite
azimuth or inclination is rendered as the em-dash placeholder (modelled
`none`), **not** defaulted to 0 / -90; a present azimuth is normalized into
[0, 360) and a present inclination clamped into [-90, 0] before being
rounded to three decimals for display with a degree suffix; id, depth,
collar coordinates and interval count are shown alongside. -/
theorem c6_tooltip_amended (h : Drillhole) :
    (buildTooltipHtml h).id = h.id ∧
    (buildTooltipHtml h).depthText = fmt h.depth ∧
    (buildTooltipHtml h).collarText = ⟨fmt h.collar.x, fmt h.collar.y, fmt h.collar.z⟩ ∧
    (buildTooltipHtml h).intervalsText = (h.intervals.getD []).length ∧
    (h.azimuth = none → (buildTooltipHtml h).azText = none) ∧
    (∀ a, h.azimuth = some a →
      (buildTooltipHtml h).azText = some (fmt (normalizeAzimuthDeg a)) ∧
      0 ≤ normalizeAzimuthDeg a ∧ normalizeAzimuthDeg a < 360) ∧
    (h.inclination = none → (buildTooltipHtml h).incText = none) ∧
    (∀ i, h.inclination = some i →
      (buildTooltipHtml h).incText = some (fmt (clampInclinationDownDeg i)) ∧
      -90 ≤ clampInclinationDownDeg i ∧ clampInclinationDownDeg i ≤ 0) := by
  refine ⟨rfl, rfl, rfl, rfl, ?_, ?_, ?_, ?_⟩
  · intro ha
    simp [buildTooltipHtml, ha]
  · intro a ha
    refine ⟨by simp [buildTooltipHtml, ha], normalizeAzimuthDeg_mem a⟩
  · intro hi
    simp [buildTooltipHtml, hi]
  · intro i hi
    refine ⟨by simp [buildTooltipHtml, hi], clampInclinationDownDeg_mem i⟩

/-- C6 witness: a hole with azimuth 370 and inclination 10 evaluated through
the amended statement. -/
theorem c6_tooltip_amended_witness :
    (buildTooltipHtml ⟨"DH-W", ⟨1, 2, 3⟩, 12, some 370, some 10, none⟩).azText =
      some (fmt (normalizeAzimuthDeg 370)) ∧
    (buildTooltipHtml ⟨"DH-W", ⟨1, 2, 3⟩, 12, some 370, some 10, none⟩).incText =
      some (fmt (clampInclinationDownDeg 10)) ∧
    (buildTooltipHtml ⟨"DH-W", ⟨1, 2, 3⟩, 12, some 370, some 10, none⟩).id = "DH-W" :=
  ⟨((c6_tooltip_amended ⟨"DH-W", ⟨1, 2, 3⟩, 12, some 370, some 10, none⟩).2.2.2.2.2.1
      370 rfl).1,
   ((c6_tooltip_amended ⟨"DH-W", ⟨1, 2, 3⟩, 12, some 370, some 10, none⟩).2.2.2.2.2.2.2
      10 rfl).1,
   (c6_tooltip_amended ⟨"DH-W", ⟨1, 2, 3⟩, 12, some 370, some 10, none⟩).1⟩

/-- C6 counterexample: for a hole with missing azimuth/inclination the
tooltip renders the em-dash placeholders (`none`), while the claim requires
the formatted defaults 0 and -90 to be shown. -/
theorem c6_tooltip_counterexample :
    (buildTooltipHtml ⟨"DH-X", ⟨0, 0, 0⟩, 10, none, none, none⟩).azText = none ∧
    (buildTooltipHtml ⟨"DH-X", ⟨0, 0, 0⟩, 10, none, none, none⟩).incText = none ∧
    (none : Option ℝ) ≠ some (fmt (normalizeAzimuthDeg 0)) ∧
    (none : Option ℝ) ≠ some (fmt (clampInclinationDownDeg (-90))) := by
  refine ⟨rfl, rfl, ?_, ?_⟩ <;> intro hcontra <;> cases hcontra

/-- The ancestor walk never returns a falsy (empty) identifier. -/
theorem pickIdFromObject_ne_some_empty (l : List (Option String)) :
    pickIdFromObject l ≠ some ("") := by
  induction l with
  | nil => intro hc; cases hc
  | cons a rest ih =>
    cases a with
    | none => simpa [pickIdFromObject] using ih
    | some s =>
      by_cases hs : s = ""
      · subst hs
        simpa [pickIdFromObject] using ih
      · simp only [pickIdFromObject, if_pos hs]
        intro hc
        injection hc with hc2
        exact hs hc2

/-- The handler's `if (id)` truthiness guard is a no-op on the result of the
ancestor walk: a picked id is never the empty string. -/
theorem ifTruthy_pick (c : List (Option String)) :
    (if isTruthyId (pickIdFromObject c) then pickIdFromObject c else none) =
      pickIdFromObject c := by
  cases hp : pickIdFromObject c with
  | none => rfl
  | some s =>
    have hs : s ≠ "" := fun hcon => pickIdFromObject_ne_some_empty c (hcon ▸ hp)
    simp [isTruthyId, hs]


/-- C4: the pointer-down handler raycasts only against the drillhole group
(its result is invariant under arbitrary grid/terrain contents), reports
nothing when there is no intersection, resolves the nearest hit through the
ancestor walk, and every reported identifier is a non-empty id found on an
ancestor of the nearest hit — in particular the selection callback is never
invoked with null/empty to clear the selection. -/
theorem c4_pointer_selection {Cam : Type}
    (raycast : Cam → ℝ × ℝ → List DrillGroup → List (List (Option String)))
    (cam : Cam) (groups : SceneGroups)
    (clientX clientY rectLeft rectTop rectWidth rectHeight : ℝ) :
    (∀ (grid2 : List GridObj) (terr2 : List Unit),
      onPointerDownEvent raycast cam ⟨groups.drill, grid2, terr2⟩
        clientX clientY rectLeft rectTop rectWidth rectHeight =
      onPointerDownEvent raycast cam groups
        clientX clientY rectLeft rectTop rectWidth rectHeight) ∧
    (raycast cam ((clientX - rectLeft) / rectWidth * 2 - 1,
        -((clientY - rectTop) / rectHeight * 2 - 1)) groups.drill = [] →
      onPointerDownEvent raycast cam groups
        clientX clientY rectLeft rectTop rectWidth rectHeight = none) ∧
    (∀ c rest, raycast cam ((clientX - rectLeft) / rectWidth * 2 - 1,
        -((clientY - rectTop) / rectHeight * 2 - 1)) groups.drill = c :: rest →
      onPointerDownEvent raycast cam groups
        clientX clientY rectLeft rectTop rectWidth rectHeight = pickIdFromObject c) ∧
    (∀ i, onPointerDownEvent raycast cam groups
        clientX clientY rectLeft rectTop rectWidth rectHeight = some i →
      i ≠ "" ∧ ∃ c rest,
        raycast cam ((clientX - rectLeft) / rectWidth * 2 - 1,
          -((clientY - rectTop) / rectHeight * 2 - 1)) groups.drill = c :: rest ∧
        pickIdFromObject c = some i) := by
  refine ⟨fun grid2 terr2 => rfl, ?_, ?_, ?_⟩
  · intro hemp
    simp only [onPointerDownEvent]
    rw [hemp]
  · intro c rest hc
    simp only [onPointerDownEvent]
    rw [hc]
    exact ifTruthy_pick c
  · intro i hev
    simp only [onPointerDownEvent] at hev
    cases hhits : raycast cam ((clientX - rectLeft) / rectWidth * 2 - 1,
        -((clientY - rectTop) / rectHeight * 2 - 1)) groups.drill with
    | nil =>
      rw [hhits] at hev
      exact Option.noConfusion hev
    | cons c rest =>
      rw [hhits] at hev
      have hev2 : pickIdFromObject c = some i := (ifTruthy_pick c).symm.trans hev
      refine ⟨?_, c, rest, rfl, hev2⟩
      intro hieq
      subst hieq
      exact pickIdFromObject_ne_some_empty c hev2

/-- C4 witness: a raycast hitting a mesh whose parent group carries an id. -/
theorem c4_pointer_selection_witness :
    onPointerDownEvent (fun (_ : Unit) _ _ => [[none, some ("DH-001")], []]) ()
      ⟨[], [], []⟩ 5 5 0 0 10 10 = some ("DH-001") := by
  rw [(c4_pointer_selection (fun (_ : Unit) _ _ => [[none, some ("DH-001")], []]) ()
      ⟨[], [], []⟩ 5 5 0 0 10 10).2.2.1 [none, some ("DH-001")] [[]] rfl]
  simp [pickIdFromObject]

/-- C9: rebuilding after appending one hole to the list yields the previous
drillhole groups plus exactly one new group tagged with the new hole's id and
containing the cylinder (kind "drillhole"), the collar sphere and the collar
disc (both kind "collar"); the rebuild touches only the three object groups
and leaves both cameras, both controls, both saved camera states, the active
discriminant and the stored half-height of the state it runs on unchanged. -/
theorem c9_rebuild_adds_one_group (s0 s1 : SceneState) (ver : String)
    (hs : List Drillhole) (h : Drillhole) (showGrid showTerrain : Bool)
    (tokens : ThemeTokens) (selectedId : Option String) :
    (rebuildObjects s1 ⟨ver, hs ++ [h]⟩ showGrid showTerrain tokens selectedId).drillGroup =
      (rebuildObjects s0 ⟨ver, hs⟩ showGrid showTerrain tokens selectedId).drillGroup ++
        [makeDrillholeMesh h tokens (selectedId == some h.id)] ∧
    (rebuildObjects s1 ⟨ver, hs ++ [h]⟩ showGrid showTerrain tokens
        selectedId).drillGroup.length =
      (rebuildObjects s0 ⟨ver, hs⟩ showGrid showTerrain tokens
        selectedId).drillGroup.length + 1 ∧
    (makeDrillholeMesh h tokens (selectedId == some h.id)).userDataId = h.id ∧
    ((makeDrillholeMesh h tokens (selectedId == some h.id)).children.map MeshObj.kind) =
      ["drillhole", "collar", "collar"] ∧
    ((makeDrillholeMesh h tokens (selectedId == some h.id)).children.map
        MeshObj.geometry) =
      [Geometry.cylinder 0.35 0.35 (max 0.01 h.depth) 16 1 false,
       Geometry.sphere (0.35 * 1.2) 16 16,
       Geometry.circle (0.35 * 1.6) 24] ∧
    (rebuildObjects s1 ⟨ver, hs ++ [h]⟩ showGrid showTerrain tokens selectedId).cam3D =
      s1.cam3D ∧
    (rebuildObjects s1 ⟨ver, hs ++ [h]⟩ showGrid showTerrain tokens selectedId).cam2D =
      s1.cam2D ∧
    (rebuildObjects s1 ⟨ver, hs ++ [h]⟩ showGrid showTerrain tokens selectedId).controls3D =
      s1.controls3D ∧
    (rebuildObjects s1 ⟨ver, hs ++ [h]⟩ showGrid showTerrain tokens selectedId).controls2D =
      s1.controls2D ∧
    (rebuildObjects s1 ⟨ver, hs ++ [h]⟩ showGrid showTerrain tokens selectedId).camState3D =
      s1.camState3D ∧
    (rebuildObjects s1 ⟨ver, hs ++ [h]⟩ showGrid showTerrain tokens selectedId).camState2D =
      s1.camState2D ∧
    (rebuildObjects s1 ⟨ver, hs ++ [h]⟩ showGrid showTerrain tokens selectedId).active =
      s1.active ∧
    (rebuildObjects s1 ⟨ver, hs ++ [h]⟩ showGrid showTerrain tokens selectedId).orthoHalfH =
      s1.orthoHalfH := by
  refine ⟨?_, ?_, rfl, rfl, rfl, rfl, rfl, rfl, rfl, rfl, rfl, rfl, rfl⟩ <;>
    simp [rebuildObjects, List.map_append]

/-- C5 (failing input): the auto-fit effect's dependency array is
`[projectSig, project.drillholes]` (part_004 line 589), so an update step
that replaces the `drillholes` array with a content-identical one (same
signature, new array identity — e.g. `updateHoleIntervals`, which maps the
array to edit one hole's intervals) re-runs auto-fit and overwrites the
cameras.  Here: one vertical hole, unchanged signature, array reference
0 → 1; the orthographic zoom the user set to 2 is reset to 1 and the plan
controls target the user panned to (9, 9, 9) is recentred to (0, -21, 0),
contradicting the claim that cameras are untouched while the signature is
unchanged. -/
theorem c5_autofit_dependency_failing_input :
    (AutoFitDeps.mk
        (projectSig ⟨"1.0.0", [⟨"DH-001", ⟨0, 0, 0⟩, 42, none, none, none⟩]⟩) 0).sig =
      (AutoFitDeps.mk
        (projectSig ⟨"1.0.0", [⟨"DH-001", ⟨0, 0, 0⟩, 42, none, none, none⟩]⟩) 1).sig ∧
    (autoFitEffectStep
        ⟨projectSig ⟨"1.0.0", [⟨"DH-001", ⟨0, 0, 0⟩, 42, none, none, none⟩]⟩, 0⟩
        ⟨"1.0.0", [⟨"DH-001", ⟨0, 0, 0⟩, 42, none, none, none⟩]⟩ 1
        ⟨⟨⟨40, 30, 40⟩, 55, 1, 0.1, 20000⟩,
         ⟨⟨0, 200, 0⟩, ⟨0, 0, -1⟩, ⟨0, 0, 0⟩, -60, 60, 60, -60, 0.1, 20000, 2⟩,
         ⟨⟨9, 9, 9⟩, true⟩, ⟨⟨9, 9, 9⟩, false⟩, none, none, ViewType.view3d,
         [], [], [], 60⟩ 1).cam2D.zoom = 1 ∧
    (autoFitEffectStep
        ⟨projectSig ⟨"1.0.0", [⟨"DH-001", ⟨0, 0, 0⟩, 42, none, none, none⟩]⟩, 0⟩
        ⟨"1.0.0", [⟨"DH-001", ⟨0, 0, 0⟩, 42, none, none, none⟩]⟩ 1
        ⟨⟨⟨40, 30, 40⟩, 55, 1, 0.1, 20000⟩,
         ⟨⟨0, 200, 0⟩, ⟨0, 0, -1⟩, ⟨0, 0, 0⟩, -60, 60, 60, -60, 0.1, 20000, 2⟩,
         ⟨⟨9, 9, 9⟩, true⟩, ⟨⟨9, 9, 9⟩, false⟩, none, none, ViewType.view3d,
         [], [], [], 60⟩ 1).controls2D.target = ⟨0, -21, 0⟩ ∧
    ((2 : ℝ) ≠ 1 ∧ (⟨9, 9, 9⟩ : Vec3r) ≠ ⟨0, -21, 0⟩) := by
  have hdir : drillDirFromAzInc ⟨"DH-001", ⟨0, 0, 0⟩, 42, none, none, none⟩ = ⟨0, -1, 0⟩ :=
    drillDirFromAzInc_vertical _ (Or.inl rfl)
  have hbot : holeBot ⟨"DH-001", ⟨0, 0, 0⟩, 42, none, none, none⟩ = ⟨0, -42, 0⟩ := by
    rw [holeBot, holeTop, hdir, vscale, vadd]
    have hm : max (0:ℝ) 42 = 42 := max_eq_right (by norm_num)
    ext <;> simp [hm]
  have hbounds :
      computeDrillholeBounds [⟨"DH-001", ⟨0, 0, 0⟩, 42, none, none, none⟩] =
        some ⟨⟨0, -42, 0⟩, ⟨0, 0, 0⟩⟩ := by
    rw [computeDrillholeBounds]
    simp only [List.isEmpty_cons, List.foldl_cons, List.foldl_nil, hbot]
    rw [if_neg (by simp)]
    simp only [holeTop, expandOpt, expandByPoint]
    have h1 : min (0:ℝ) (-42) = -42 := min_eq_right (by norm_num)
    have h2 : max (0:ℝ) (-42) = 0 := max_eq_left (by norm_num)
    simp [h1, h2]
  have hne : (AutoFitDeps.mk
      (projectSig ⟨"1.0.0", [⟨"DH-001", ⟨0, 0, 0⟩, 42, none, none, none⟩]⟩) 0) ≠
      ⟨projectSig ⟨"1.0.0", [⟨"DH-001", ⟨0, 0, 0⟩, 42, none, none, none⟩]⟩, 1⟩ := by
    intro hcontra
    have := congrArg AutoFitDeps.drillholesRef hcontra
    norm_num at this
  have hempty : box3IsEmpty ⟨⟨0, -42, 0⟩, ⟨0, 0, 0⟩⟩ = False := by
    simp only [box3IsEmpty, eq_iff_iff, iff_false]
    push_neg
    norm_num
  have hcenter : getCenter ⟨⟨0, -42, 0⟩, ⟨0, 0, 0⟩⟩ = ⟨0, -21, 0⟩ := by
    rw [getCenter, if_neg (by rw [hempty]; exact id), vadd, vscale]
    ext <;> norm_num
  refine ⟨rfl, ?_, ?_, by norm_num, ?_⟩
  · rw [autoFitEffectStep]
    rw [if_neg hne, autoFitPass, hbounds]
    simp [fitOrthoToBounds]
  · rw [autoFitEffectStep]
    rw [if_neg hne, autoFitPass, hbounds]
    simp [fitOrthoToBounds, hcenter]
  · intro hcontra
    have := congrArg Vec3r.x hcontra
    norm_num at this

end GeoCore
